import Mathlib

set_option maxRecDepth 16384

/-!
Verification of the cache-strategy engine of the service worker (sw.js).

The embedding below translates the worker source faithfully:

* module-level constants (`CACHE_NAME`, `STATIC_CACHE`, `DYNAMIC_CACHE`,
  `STATIC_ASSETS`, `NETWORK_FIRST`) are transcribed verbatim;
* cache storage is a pair of partitions (the worker only ever writes the
  STATIC and DYNAMIC partitions); `caches.match` searches every partition,
  STATIC first (it is created first, during install);
* the network is an explicit oracle `Request → Except String Response`
  (`Except.error` models a rejected fetch promise; an HTTP error status such
  as 404 is a resolved fetch whose `ok` field is false, exactly as in the
  platform);
* `cacheFirst` and `networkFirst` are direct translations of the two handler
  functions, instrumented with a fetch counter and a put counter, plus a
  `putOk` flag recording whether the fire-and-forget `cache.put` succeeds
  (the source never awaits the put, so its outcome cannot influence the
  returned response);
* the install handler models the promise chain
  `open → addAll → skipWaiting`, with the platform guarantee that
  `cache.addAll` is all-or-nothing, and with the final `.catch` of the
  source, which logs the error and thereby settles the `waitUntil` promise
  as resolved;
* the activate handler keeps exactly the cache names the source does not
  delete.
-/

def CACHE_NAME : String := "hexo-blog-v1.0.0"

def STATIC_CACHE : String := "static-v1.0.0"

def DYNAMIC_CACHE : String := "dynamic-v1.0.0"

/-- The Static Asset Manifest (`STATIC_ASSETS` in the source). -/
def STATIC_ASSETS : List String :=
  ["/",
   "/css/matery.css",
   "/css/modern-optimizations.css",
   "/js/matery.js",
   "/js/modern-optimizations.js",
   "/libs/jquery/jquery-3.6.0.min.js",
   "/libs/materialize/materialize.min.js",
   "/medias/logo.png",
   "/favicon.png"]

/-- The Network-First Path List (`NETWORK_FIRST` in the source). -/
def NETWORK_FIRST : List String :=
  ["/search.xml",
   "/atom.xml",
   "/sitemap.xml"]

/-- Does the character list start with the given sub-list (second argument)? -/
def charsStartWith : List Char → List Char → Bool
  | _, [] => true
  | [], _ :: _ => false
  | c :: cs, d :: ds => c == d && charsStartWith cs ds

/-- Does the character list (second argument) contain `sub` as a contiguous run? -/
def charsContain (sub : List Char) : List Char → Bool
  | [] => charsStartWith [] sub
  | c :: cs => charsStartWith (c :: cs) sub || charsContain sub cs

/-- JS `s.includes(sub)`: substring containment on strings. -/
def strIncludes (s sub : String) : Bool :=
  charsContain sub.data s.data

/-- The status a platform `Response` gets when the constructor is given no
explicit status (used by the SVG placeholder, which passes headers only). -/
def responseDefaultStatus : Nat := 200

/-- A stored or network HTTP response: status, content-type header, body. -/
structure Response where
  status : Nat
  contentType : String
  body : String
deriving DecidableEq

/-- JS `Response.ok`: status in the inclusive range 200..299. -/
def Response.ok (r : Response) : Bool :=
  decide (200 ≤ r.status ∧ r.status ≤ 299)

/-- An intercepted request: origin, URL path, declared resource type
(`request.destination`, a string such as "style", "script", "image",
"document", or "" for other). -/
structure Request where
  origin : String
  pathname : String
  destination : String
deriving DecidableEq

/-- The cache storage as the worker uses it: the STATIC partition and the
DYNAMIC partition, each a keyed list of responses (key = URL path). -/
structure CacheStorage where
  staticCache : List (String × Response)
  dynamicCache : List (String × Response)
deriving DecidableEq

/-- Look a key up in one partition. -/
def lookupEntry (entries : List (String × Response)) (key : String) : Option Response :=
  match entries.find? (fun e => e.1 == key) with
  | some e => some e.2
  | none => none

/-- `cache.put`: store the response under the key, replacing any previous
entry for that key. -/
def putEntry (entries : List (String × Response)) (key : String) (r : Response) :
    List (String × Response) :=
  (key, r) :: entries.filter (fun e => e.1 != key)

/-- `caches.match`: search every partition, STATIC first (creation order). -/
def cachesMatch (st : CacheStorage) (key : String) : Option Response :=
  match lookupEntry st.staticCache key with
  | some r => some r
  | none => lookupEntry st.dynamicCache key

/-- The policy an intercepted request is routed to by the fetch listener. -/
inductive Policy
  | cacheFirst
  | networkFirst
deriving DecidableEq

/-- The fetch event listener, reduced to its routing decision: `none` means
the request is not intercepted (cross-origin), otherwise the handler chosen.
The branch order is exactly that of the source listener. -/
def classify (selfOrigin : String) (req : Request) : Option Policy :=
  if req.origin ≠ selfOrigin then
    none
  else if NETWORK_FIRST.any (fun path => strIncludes req.pathname path) then
    some Policy.networkFirst
  else if req.destination = "style" ∨ req.destination = "script"
      ∨ req.destination = "image" ∨ req.pathname ∈ STATIC_ASSETS then
    some Policy.cacheFirst
  else if req.destination = "document" then
    some Policy.networkFirst
  else
    some Policy.networkFirst

/-- Body of the inline SVG placeholder returned for failed image requests,
transcribed from the source. -/
def imagePlaceholderSvg : String :=
  "<svg width=\"200\" height=\"150\" xmlns=\"http://www.w3.org/2000/svg\"><rect width=\"100%\" height=\"100%\" fill=\"#f0f0f0\"/><text x=\"50%\" y=\"50%\" text-anchor=\"middle\" dy=\".3em\" fill=\"#999\">图片加载失败</text></svg>"

/-- The placeholder response for failed image requests: constructed with a
headers object only, so the platform default status applies. -/
def imagePlaceholder : Response :=
  ⟨responseDefaultStatus, "image/svg+xml", imagePlaceholderSvg⟩

/-- Body of the inline offline page, transcribed from the source template
literal (braces of the embedded CSS written as escapes). -/
def offlineHtml : String :=
  "<!DOCTYPE html>\n        <html>\n        <head>\n          <title>离线状态</title>\n          <meta charset=\"utf-8\">\n          <meta name=\"viewport\" content=\"width=device-width, initial-scale=1\">\n          <style>\n            body \x7b font-family: Arial, sans-serif; text-align: center; padding: 50px; \x7d\n            .offline-message \x7b max-width: 400px; margin: 0 auto; \x7d\n            .offline-icon \x7b font-size: 64px; margin-bottom: 20px; \x7d\n          </style>\n        </head>\n        <body>\n          <div class=\"offline-message\">\n            <div class=\"offline-icon\">📱</div>\n            <h1>当前处于离线状态</h1>\n            <p>请检查网络连接后重试</p>\n            <button onclick=\"window.location.reload()\">重新加载</button>\n          </div>\n        </body>\n        </html>"

/-- The synthesized offline page: explicit status 200 and the charset header,
as in the source constructor call. -/
def offlinePage : Response :=
  ⟨200, "text/html; charset=utf-8", offlineHtml⟩

/-- Result of one handler invocation: the settled value of the returned
promise (`Except.error` models a rethrown error), the cache storage after the
call, and how many network fetches and cache puts the call performed. -/
structure HandlerResult where
  response : Except String Response
  state : CacheStorage
  fetchCount : Nat
  putCount : Nat

/-- The `cacheFirst` handler, translated clause by clause from the source.
`putOk` records whether the fire-and-forget `cache.put` succeeds; the source
does not await the put, so only the stored state can depend on it. -/
def cacheFirst (fetchFn : Request → Except String Response) (putOk : Bool)
    (st : CacheStorage) (req : Request) : HandlerResult :=
  match cachesMatch st req.pathname with
  | some cached => ⟨Except.ok cached, st, 0, 0⟩
  | none =>
    match fetchFn req with
    | Except.ok networkResponse =>
      if networkResponse.ok then
        ⟨Except.ok networkResponse,
          (if putOk then
            ⟨putEntry st.staticCache req.pathname networkResponse, st.dynamicCache⟩
          else st),
          1, 1⟩
      else
        ⟨Except.ok networkResponse, st, 1, 0⟩
    | Except.error e =>
      if req.destination = "image" then
        ⟨Except.ok imagePlaceholder, st, 1, 0⟩
      else
        ⟨Except.error e, st, 1, 0⟩

/-- The `networkFirst` handler, translated clause by clause from the source. -/
def networkFirst (fetchFn : Request → Except String Response) (putOk : Bool)
    (st : CacheStorage) (req : Request) : HandlerResult :=
  match fetchFn req with
  | Except.ok networkResponse =>
    if networkResponse.ok then
      ⟨Except.ok networkResponse,
        (if putOk then
          ⟨st.staticCache, putEntry st.dynamicCache req.pathname networkResponse⟩
        else st),
        1, 1⟩
    else
      ⟨Except.ok networkResponse, st, 1, 0⟩
  | Except.error e =>
    match cachesMatch st req.pathname with
    | some cached => ⟨Except.ok cached, st, 1, 0⟩
    | none =>
      if req.destination = "document" then
        match cachesMatch st "/offline.html" with
        | some offlineCached => ⟨Except.ok offlineCached, st, 1, 0⟩
        | none => ⟨Except.ok offlinePage, st, 1, 0⟩
      else
        ⟨Except.error e, st, 1, 0⟩

/-- How the promise handed to `event.waitUntil` settles. -/
inductive Settled
  | resolved
  | rejected
deriving DecidableEq

/-- Outcome of the install event: the entries added to the STATIC partition,
whether `self.skipWaiting()` was invoked, and how the `waitUntil` promise
settled. -/
structure InstallResult where
  staticEntries : List (String × Response)
  skipWaitingCalled : Bool
  settled : Settled
deriving DecidableEq

/-- `cache.addAll`: fetch every listed path; the batch is all-or-nothing, and
a response outside the 2xx range also rejects the batch (platform semantics
of `addAll`). -/
def addAll (fetchFn : String → Except String Response) :
    List String → Except String (List (String × Response))
  | [] => Except.ok []
  | path :: rest =>
    match fetchFn path with
    | Except.error e => Except.error e
    | Except.ok r =>
      if r.ok then
        match addAll fetchFn rest with
        | Except.ok entries => Except.ok ((path, r) :: entries)
        | Except.error e => Except.error e
      else
        Except.error "addAll: request failed"

/-- The install event listener: `open(STATIC_CACHE)` then `addAll` then
`skipWaiting`, with the final catch of the source, which logs the error; a
caught rejection therefore settles the `waitUntil` promise as resolved. -/
def installEvent (fetchFn : String → Except String Response) : InstallResult :=
  match addAll fetchFn STATIC_ASSETS with
  | Except.ok entries => ⟨entries, true, Settled.resolved⟩
  | Except.error _ => ⟨[], false, Settled.resolved⟩

/-- The activate event listener, reduced to the set of cache names that
survive: the source deletes every name different from both current names. -/
def activateEvent (cacheNames : List String) : List String :=
  cacheNames.filter (fun cacheName =>
    !(cacheName != STATIC_CACHE && cacheName != DYNAMIC_CACHE))

/-- A sample 2xx response used by concrete witnesses. -/
def sampleResponse : Response := ⟨200, "application/xml", "<feed/>"⟩

/-- A network oracle that always succeeds with `sampleResponse`. -/
def fetchSampleOk : Request → Except String Response :=
  fun _ => Except.ok sampleResponse

/-- A network oracle whose fetch promise always rejects. -/
def fetchNetworkDown : Request → Except String Response :=
  fun _ => Except.error "offline"

/-- A 404 response (resolved fetch, `ok` false). -/
def sample404 : Response := ⟨404, "text/html", "not found"⟩

/-- A network oracle that always resolves with the 404 response. -/
def fetch404 : Request → Except String Response :=
  fun _ => Except.ok sample404

/-- Empty cache storage. -/
def emptyCaches : CacheStorage := ⟨[], []⟩

/-- A sample same-origin feed request. -/
def sampleRequest : Request := ⟨"https://315fang.github.io", "/atom.xml", ""⟩

/-- A sample document (navigation) request. -/
def sampleDocRequest : Request := ⟨"https://315fang.github.io", "/some/post/", "document"⟩

/-- A sample image request. -/
def sampleImageRequest : Request := ⟨"https://315fang.github.io", "/medias/x.png", "image"⟩

/-- A second sample image request (distinct witness input). -/
def sampleImageRequest2 : Request := ⟨"https://315fang.github.io", "/medias/y.png", "image"⟩

/-- An install-time oracle that succeeds on every manifest path. -/
def fetchAllAssetsOk : String → Except String Response :=
  fun path => Except.ok ⟨200, "text/plain", path⟩

/-- An install-time oracle that fails on exactly one manifest entry. -/
def fetchCssFails : String → Except String Response :=
  fun path =>
    if path = "/css/matery.css" then Except.error "network failure"
    else Except.ok ⟨200, "text/plain", path⟩

/-- Looking up a key right after putting it returns the stored response. -/
theorem lookupEntry_putEntry (entries : List (String × Response)) (key : String) (r : Response) :
    lookupEntry (putEntry entries key r) key = some r := by
  simp [lookupEntry, putEntry]

/-- C2: a same-origin request whose path contains one of the Network-First
Path List substrings is routed to NETWORK_FIRST regardless of its declared
resource type or manifest membership, because that rule precedes the
resource-type rules in the listener. -/
theorem classify_networkFirstPaths (selfOrigin : String) (req : Request)
    (hsame : req.origin = selfOrigin)
    (hpath : NETWORK_FIRST.any (fun path => strIncludes req.pathname path) = true) :
    classify selfOrigin req = some Policy.networkFirst := by
  simp [classify, hsame, hpath]

/-- Witness for C2: a feed request declared as a style resource. -/
theorem classify_networkFirstPaths_witness :
    classify "https://315fang.github.io"
      ⟨"https://315fang.github.io", "/atom.xml", "style"⟩ = some Policy.networkFirst :=
  classify_networkFirstPaths "https://315fang.github.io"
    ⟨"https://315fang.github.io", "/atom.xml", "style"⟩ rfl (by decide)

/-- C7: after activation exactly the partitions named like the current STATIC
or DYNAMIC partition remain; in particular the v0.9.0 partitions are deleted
and the v1.0.0 partitions remain. -/
theorem activateEvent_eviction :
    (∀ (cacheNames : List String) (n : String),
      n ∈ activateEvent cacheNames ↔ n ∈ cacheNames ∧ (n = STATIC_CACHE ∨ n = DYNAMIC_CACHE))
    ∧ activateEvent ["static-v0.9.0", "dynamic-v0.9.0", "static-v1.0.0", "dynamic-v1.0.0"]
        = ["static-v1.0.0", "dynamic-v1.0.0"] := by
  constructor
  · intro cacheNames n
    simp [activateEvent, List.mem_filter]
  · decide

/-- Witness for C7 at the concrete partition set of the claim. -/
theorem activateEvent_eviction_witness :
    "static-v1.0.0" ∈ activateEvent
      ["static-v0.9.0", "dynamic-v0.9.0", "static-v1.0.0", "dynamic-v1.0.0"] :=
  (activateEvent_eviction.1 _ _).mpr ⟨by decide, Or.inl rfl⟩

/-- C9: a resolved fetch with a non-2xx status is returned unchanged by both
handlers, nothing is written to any partition, and no fallback is produced. -/
theorem nonOk_passthrough (fetchFn : Request → Except String Response) (putOk : Bool)
    (st : CacheStorage) (req : Request) (r : Response)
    (hfetch : fetchFn req = Except.ok r) (hnotok : r.ok = false) :
    (cachesMatch st req.pathname = none →
      cacheFirst fetchFn putOk st req = ⟨Except.ok r, st, 1, 0⟩)
    ∧ networkFirst fetchFn putOk st req = ⟨Except.ok r, st, 1, 0⟩ := by
  constructor
  · intro hmiss
    simp [cacheFirst, hmiss, hfetch, hnotok]
  · simp [networkFirst, hfetch, hnotok]

/-- Witness for C9: a 404 response passes through both handlers untouched. -/
theorem nonOk_passthrough_witness :
    cacheFirst fetch404 true emptyCaches sampleRequest
        = ⟨Except.ok sample404, emptyCaches, 1, 0⟩
    ∧ networkFirst fetch404 true emptyCaches sampleRequest
        = ⟨Except.ok sample404, emptyCaches, 1, 0⟩ :=
  ⟨(nonOk_passthrough fetch404 true emptyCaches sampleRequest sample404 rfl (by decide)).1 rfl,
   (nonOk_passthrough fetch404 true emptyCaches sampleRequest sample404 rfl (by decide)).2⟩

/-- C10: the SVG placeholder produced for a failed image request carries the
platform default status, which is 200, so a failed image load is
indistinguishable from success at the status level. -/
theorem imagePlaceholder_default_status (fetchFn : Request → Except String Response)
    (putOk : Bool) (st : CacheStorage) (req : Request) (e : String)
    (herr : fetchFn req = Except.error e)
    (hmiss : cachesMatch st req.pathname = none)
    (himg : req.destination = "image") :
    (cacheFirst fetchFn putOk st req).response = Except.ok imagePlaceholder
    ∧ imagePlaceholder.status = responseDefaultStatus
    ∧ responseDefaultStatus = 200 := by
  refine ⟨?_, rfl, rfl⟩
  simp [cacheFirst, hmiss, herr, himg]

/-- Witness for C10 at a concrete offline image request. -/
theorem imagePlaceholder_default_status_witness :
    (cacheFirst fetchNetworkDown true emptyCaches sampleImageRequest2).response
        = Except.ok imagePlaceholder
    ∧ imagePlaceholder.status = responseDefaultStatus
    ∧ responseDefaultStatus = 200 :=
  imagePlaceholder_default_status fetchNetworkDown true emptyCaches sampleImageRequest2
    "offline" rfl rfl rfl

/-- A cache storage already holding the sample feed entry in STATIC. -/
def cachedCaches : CacheStorage := ⟨[("/atom.xml", sampleResponse)], []⟩

/-- C3: CACHE_FIRST is idempotent with respect to the network: a cache hit is
returned with zero fetches and zero puts and an unchanged state; on a miss
with a 2xx network response the first call performs exactly one fetch and one
put and returns the network response, and the identical second call performs
zero fetches and returns the now-cached response. -/
theorem cacheFirst_idempotent :
    (∀ (fetchFn : Request → Except String Response) (putOk : Bool) (st : CacheStorage)
        (req : Request) (cached : Response),
      cachesMatch st req.pathname = some cached →
      cacheFirst fetchFn putOk st req = ⟨Except.ok cached, st, 0, 0⟩)
    ∧ (∀ (fetchFn : Request → Except String Response) (st : CacheStorage) (req : Request)
        (r : Response),
      cachesMatch st req.pathname = none → fetchFn req = Except.ok r → r.ok = true →
      (cacheFirst fetchFn true st req).fetchCount = 1
      ∧ (cacheFirst fetchFn true st req).putCount = 1
      ∧ (cacheFirst fetchFn true st req).response = Except.ok r
      ∧ (cacheFirst fetchFn true (cacheFirst fetchFn true st req).state req).fetchCount = 0
      ∧ (cacheFirst fetchFn true (cacheFirst fetchFn true st req).state req).response
          = Except.ok r) := by
  constructor
  · intro fetchFn putOk st req cached hhit
    simp [cacheFirst, hhit]
  · intro fetchFn st req r hmiss hfetch hok
    have hfirst : cacheFirst fetchFn true st req
        = ⟨Except.ok r, ⟨putEntry st.staticCache req.pathname r, st.dynamicCache⟩, 1, 1⟩ := by
      simp [cacheFirst, hmiss, hfetch, hok]
    have hhit2 : cachesMatch ⟨putEntry st.staticCache req.pathname r, st.dynamicCache⟩
        req.pathname = some r := by
      simp [cachesMatch, lookupEntry_putEntry]
    have hsecond : cacheFirst fetchFn true
        ⟨putEntry st.staticCache req.pathname r, st.dynamicCache⟩ req
        = ⟨Except.ok r, ⟨putEntry st.staticCache req.pathname r, st.dynamicCache⟩, 0, 0⟩ := by
      simp [cacheFirst, hhit2]
    exact ⟨by rw [hfirst], by rw [hfirst], by rw [hfirst],
      by rw [hfirst, hsecond], by rw [hfirst, hsecond]⟩

/-- Witness for C3: a hit in a populated cache, and the miss-then-hit pair on
an empty cache. -/
theorem cacheFirst_idempotent_witness :
    cacheFirst fetchNetworkDown true cachedCaches sampleRequest
        = ⟨Except.ok sampleResponse, cachedCaches, 0, 0⟩
    ∧ (cacheFirst fetchSampleOk true emptyCaches sampleRequest).fetchCount = 1
    ∧ (cacheFirst fetchSampleOk true
        (cacheFirst fetchSampleOk true emptyCaches sampleRequest).state sampleRequest).fetchCount
        = 0 :=
  ⟨cacheFirst_idempotent.1 fetchNetworkDown true cachedCaches sampleRequest sampleResponse rfl,
   (cacheFirst_idempotent.2 fetchSampleOk emptyCaches sampleRequest sampleResponse
      rfl rfl (by decide)).1,
   (cacheFirst_idempotent.2 fetchSampleOk emptyCaches sampleRequest sampleResponse
      rfl rfl (by decide)).2.2.2.1⟩

/-- C4: a 2xx NETWORK_FIRST response is written through to the DYNAMIC
partition, and an identical later request whose fetch rejects falls back to
the cache and returns exactly that stored response. -/
theorem networkFirst_roundtrip (fetchLive fetchDown : Request → Except String Response)
    (st : CacheStorage) (req : Request) (r : Response) (e : String)
    (hlive : fetchLive req = Except.ok r) (h2xx : r.ok = true)
    (hstatic : lookupEntry st.staticCache req.pathname = none)
    (hdown : fetchDown req = Except.error e) :
    lookupEntry (networkFirst fetchLive true st req).state.dynamicCache req.pathname = some r
    ∧ (networkFirst fetchDown true (networkFirst fetchLive true st req).state req).response
        = Except.ok r := by
  have hfirst : networkFirst fetchLive true st req
      = ⟨Except.ok r, ⟨st.staticCache, putEntry st.dynamicCache req.pathname r⟩, 1, 1⟩ := by
    simp [networkFirst, hlive, h2xx]
  have hmatch : cachesMatch ⟨st.staticCache, putEntry st.dynamicCache req.pathname r⟩
      req.pathname = some r := by
    simp [cachesMatch, hstatic, lookupEntry_putEntry]
  constructor
  · rw [hfirst]
    exact lookupEntry_putEntry _ _ _
  · rw [hfirst]
    simp [networkFirst, hdown, hmatch]

/-- Witness for C4: store the feed once, then retrieve it with the network
down. -/
theorem networkFirst_roundtrip_witness :
    lookupEntry (networkFirst fetchSampleOk true emptyCaches sampleRequest).state.dynamicCache
        sampleRequest.pathname = some sampleResponse
    ∧ (networkFirst fetchNetworkDown true
        (networkFirst fetchSampleOk true emptyCaches sampleRequest).state sampleRequest).response
        = Except.ok sampleResponse :=
  networkFirst_roundtrip fetchSampleOk fetchNetworkDown emptyCaches sampleRequest sampleResponse
    "offline" rfl (by decide) rfl rfl

/-- C8: when the fetch resolves 2xx, the response either handler returns does
not depend on whether the write-through put succeeds (the source never awaits
the put). -/
theorem putFailure_response_independent (fetchFn : Request → Except String Response)
    (st : CacheStorage) (req : Request) (r : Response)
    (hfetch : fetchFn req = Except.ok r) (h2xx : r.ok = true) :
    (cachesMatch st req.pathname = none →
      (cacheFirst fetchFn true st req).response = (cacheFirst fetchFn false st req).response)
    ∧ (networkFirst fetchFn true st req).response
        = (networkFirst fetchFn false st req).response := by
  constructor
  · intro hmiss
    simp [cacheFirst, hmiss, hfetch, h2xx]
  · simp [networkFirst, hfetch, h2xx]

/-- Witness for C8 at a concrete 2xx fetch. -/
theorem putFailure_response_independent_witness :
    (cacheFirst fetchSampleOk true emptyCaches sampleDocRequest).response
        = (cacheFirst fetchSampleOk false emptyCaches sampleDocRequest).response
    ∧ (networkFirst fetchSampleOk true emptyCaches sampleDocRequest).response
        = (networkFirst fetchSampleOk false emptyCaches sampleDocRequest).response :=
  ⟨(putFailure_response_independent fetchSampleOk emptyCaches sampleDocRequest sampleResponse
      rfl (by decide)).1 rfl,
   (putFailure_response_independent fetchSampleOk emptyCaches sampleDocRequest sampleResponse
      rfl (by decide)).2⟩

/-- C5: NETWORK_FIRST with a rejected fetch and a cache miss returns, for a
document request, a cached `/offline.html` when one exists and otherwise the
synthesized offline page (status 200, `text/html; charset=utf-8`, body with
the offline message and the reload button); for a non-document request the
error is rethrown. -/
theorem networkFirst_offline_fallback (fetchFn : Request → Except String Response)
    (putOk : Bool) (st : CacheStorage) (req : Request) (e : String)
    (herr : fetchFn req = Except.error e)
    (hmiss : cachesMatch st req.pathname = none) :
    (req.destination = "document" →
      (∀ off, cachesMatch st "/offline.html" = some off →
        (networkFirst fetchFn putOk st req).response = Except.ok off)
      ∧ (cachesMatch st "/offline.html" = none →
        (networkFirst fetchFn putOk st req).response = Except.ok offlinePage
        ∧ offlinePage.status = 200
        ∧ offlinePage.contentType = "text/html; charset=utf-8"
        ∧ strIncludes offlinePage.body "当前处于离线状态" = true
        ∧ strIncludes offlinePage.body
            "<button onclick=\"window.location.reload()\">重新加载</button>" = true))
    ∧ (req.destination ≠ "document" →
      (networkFirst fetchFn putOk st req).response = Except.error e) := by
  constructor
  · intro hdoc
    constructor
    · intro off hoff
      simp [networkFirst, herr, hmiss, hdoc, hoff]
    · intro hnooff
      refine ⟨?_, rfl, rfl, by decide, by decide⟩
      simp [networkFirst, herr, hmiss, hdoc, hnooff]
  · intro hnotdoc
    simp [networkFirst, herr, hmiss, hnotdoc]

/-- Witness for C5: an offline navigation with an empty cache receives the
synthesized offline page. -/
theorem networkFirst_offline_fallback_witness :
    (networkFirst fetchNetworkDown true emptyCaches sampleDocRequest).response
        = Except.ok offlinePage
    ∧ offlinePage.status = 200
    ∧ offlinePage.contentType = "text/html; charset=utf-8"
    ∧ strIncludes offlinePage.body "当前处于离线状态" = true
    ∧ strIncludes offlinePage.body
        "<button onclick=\"window.location.reload()\">重新加载</button>" = true :=
  ((networkFirst_offline_fallback fetchNetworkDown true emptyCaches sampleDocRequest "offline"
      rfl rfl).1 rfl).2 rfl

/-- C6: CACHE_FIRST with a cache miss and a rejected fetch returns, for an
image request, the SVG placeholder (`image/svg+xml`, an svg body with a
human-readable failure caption); for any other resource type the error is
rethrown. -/
theorem cacheFirst_image_fallback (fetchFn : Request → Except String Response)
    (putOk : Bool) (st : CacheStorage) (req : Request) (e : String)
    (herr : fetchFn req = Except.error e)
    (hmiss : cachesMatch st req.pathname = none) :
    (req.destination = "image" →
      (cacheFirst fetchFn putOk st req).response = Except.ok imagePlaceholder
      ∧ imagePlaceholder.contentType = "image/svg+xml"
      ∧ strIncludes imagePlaceholder.body "<svg" = true
      ∧ strIncludes imagePlaceholder.body "图片加载失败" = true)
    ∧ (req.destination ≠ "image" →
      (cacheFirst fetchFn putOk st req).response = Except.error e) := by
  constructor
  · intro himg
    exact ⟨by simp [cacheFirst, hmiss, herr, himg], rfl, by decide, by decide⟩
  · intro hnot
    simp [cacheFirst, hmiss, herr, hnot]

/-- Witness for C6: an offline image request with an empty cache receives the
SVG placeholder. -/
theorem cacheFirst_image_fallback_witness :
    (cacheFirst fetchNetworkDown true emptyCaches sampleImageRequest).response
        = Except.ok imagePlaceholder
    ∧ imagePlaceholder.contentType = "image/svg+xml"
    ∧ strIncludes imagePlaceholder.body "<svg" = true
    ∧ strIncludes imagePlaceholder.body "图片加载失败" = true :=
  (cacheFirst_image_fallback fetchNetworkDown true emptyCaches sampleImageRequest "offline"
      rfl rfl).1 rfl

/-- C1 counterexample: one manifest entry fails to fetch, yet the promise the
source hands to `waitUntil` settles resolved, because the final catch of the
install chain logs the error and swallows the rejection. The install
therefore does not fail as the claim states (the worker still advances to the
waiting state); only the skip-waiting call is skipped and no entry is added. -/
theorem installEvent_failure_counterexample :
    fetchCssFails "/css/matery.css" = Except.error "network failure"
    ∧ "/css/matery.css" ∈ STATIC_ASSETS
    ∧ (installEvent fetchCssFails).settled = Settled.resolved
    ∧ ¬ (installEvent fetchCssFails).settled = Settled.rejected := by
  refine ⟨rfl, by decide, rfl, by decide⟩

/-- C1 amended: the bulk-add is all-or-nothing and skip-waiting runs exactly
when every manifest asset fetches successfully; on any failure nothing is
added and skip-waiting is not invoked, but the caught rejection leaves the
`waitUntil` promise resolved, so the install event itself still completes. -/
theorem installEvent_amended (fetchFn : String → Except String Response) :
    (installEvent fetchFn).settled = Settled.resolved
    ∧ ((installEvent fetchFn).skipWaitingCalled = true ↔
        ∃ entries, addAll fetchFn STATIC_ASSETS = Except.ok entries)
    ∧ (∀ e, addAll fetchFn STATIC_ASSETS = Except.error e →
        (installEvent fetchFn).staticEntries = []
        ∧ (installEvent fetchFn).skipWaitingCalled = false)
    ∧ (∀ entries, addAll fetchFn STATIC_ASSETS = Except.ok entries →
        (installEvent fetchFn).staticEntries = entries
        ∧ (installEvent fetchFn).skipWaitingCalled = true) := by
  cases h : addAll fetchFn STATIC_ASSETS with
  | ok entries => simp [installEvent, h]
  | error e => simp [installEvent, h]

/-- Witness for the amended C1: the failing oracle adds nothing and skips the
skip-waiting call; the succeeding oracle invokes skip-waiting. -/
theorem installEvent_amended_witness :
    (installEvent fetchCssFails).settled = Settled.resolved
    ∧ (installEvent fetchCssFails).staticEntries = []
    ∧ (installEvent fetchCssFails).skipWaitingCalled = false
    ∧ (installEvent fetchAllAssetsOk).skipWaitingCalled = true :=
  ⟨(installEvent_amended fetchCssFails).1,
   ((installEvent_amended fetchCssFails).2.2.1 "network failure" rfl).1,
   ((installEvent_amended fetchCssFails).2.2.1 "network failure" rfl).2,
   (installEvent_amended fetchAllAssetsOk).2.1.mpr ⟨_, rfl⟩⟩
